import Mathlib

/-!
Verification development for the CT-scan 3D reconstruction batch pipeline
(source: ct_3d_pipeline.py).  The script builds a scalar volume from a stack
of TIF slices, then runs a two-phase parameter sweep: for each combination
of (threshold, reduction) it runs the VTK geometry pipeline
(marching cubes, triangle filter, clean, decimate), measures the resulting
mesh, writes an STL file and a PNG preview, and appends a row to an
in-memory result log; at the end it serializes the log as a CSV summary.

The VTK geometry stages are external collaborators; they are embedded as an
abstract oracle from (threshold, reduction) to a mesh-measurement record.
The observable behaviour of the script (console messages, file writes, log
appends, the summary write) is embedded as a trace of events produced by
pure functions that mirror the control flow of process_and_save and main.
Wall-clock timing text and the absolute-path text inside some console
messages are not modelled; such messages appear as dedicated event
constructors carrying the data the script interpolates.  Real quantities
are embedded as exact rationals; the double type of the script is exact on
every value the sweep control flow branches on.
-/

namespace CTPipeline

/-- Measurement record for the output of the external VTK pipeline
(marching cubes, triangle filter, vtkCleanPolyData, vtkDecimatePro, then
vtkMassProperties, GetBounds and vtkCenterOfMass) on one
(threshold, reduction) combination.  `bbX` etc. are the bounding-box edge
lengths bounds[1]-bounds[0], bounds[3]-bounds[2], bounds[5]-bounds[4];
`comX` etc. are the center-of-mass coordinates. -/
structure MeshResult where
  numPolys : Nat
  surfaceArea : ℚ
  volume : ℚ
  bbX : ℚ
  bbY : ℚ
  bbZ : ℚ
  comX : ℚ
  comY : ℚ
  comZ : ℚ
deriving DecidableEq

/-- The external geometry pipeline as an oracle: threshold and reduction to
the measured mesh of that combination.  The shared volume is immutable, so
one fixed oracle per run is faithful. -/
abbrev Pipeline := Int → ℚ → MeshResult

/-- One row of the result log (the dict appended to log_list in
process_and_save).  Integer-valued entries are stored as integers, the
eight measured quantities as the already-formatted strings the script
builds with the .2f format, and the two file names as strings. -/
structure Row where
  threshold : Int
  reductionPercent : Int
  polygonCount : Nat
  surfaceArea : String
  volume : String
  bbX : String
  bbY : String
  bbZ : String
  comX : String
  comY : String
  comZ : String
  stlFile : String
  imageFile : String
deriving DecidableEq

/-- Observable events of a run, in program order.  Console messages whose
text interpolates run-time-only data (absolute paths, elapsed seconds, the
scalar range) are dedicated constructors; file writes carry their path. -/
inductive Event where
  | mkdirOutput
  | outputDirMsg
  | readingFilesMsg
  | dirNotFoundMsg
  | noTifMsg
  | dataLoadedMsg
  | valueRangeMsg
  | batchBannerMsg (text : String)
  | processingMsg (info : String) (threshold : Int) (reduction : ℚ)
  | skipMsg
  | analyze (threshold : Int) (reduction : ℚ)
  | writeStl (path : String)
  | savedStlMsg (path : String)
  | writePng (path : String)
  | savedImageMsg (path : String)
  | appendLog (row : Row)
  | iterFinishedMsg
  | noResultsMsg
  | writeSummary (path : String) (rows : List Row)
  | summaryDoneMsg (path : String)
  | summaryErrorMsg (path : String) (reason : String)
deriving DecidableEq

/-- INPUT_DIR constant of the script. -/
def INPUT_DIR : String := "8bit"

/-- OUTPUT_DIR constant of the script. -/
def OUTPUT_DIR : String := "output"

/-- os.path.join for a directory and a relative file name, the only way
the script uses it. -/
def pathJoin (dir fname : String) : String := dir ++ "/" ++ fname

/-- Integer quotient of n by the positive natural d, truncated toward
zero: the rounding of Python int(). -/
def truncDiv (n : Int) (d : Nat) : Int :=
  if 0 ≤ n then ((n.toNat / d : Nat) : Int)
  else -(((-n).toNat / d : Nat) : Int)

/-- int(reduction * 100) of the script.  A rational r times 100 is exactly
100 * r.num over r.den, so truncating that quotient toward zero is exact;
on the swept values 0, 1/2, 9/10 and 99/100 the double arithmetic of the
script gives the same integers 0, 50, 90, 99. -/
def reductionPercentOf (r : ℚ) : Int := truncDiv (100 * r.num) r.den

/-- Round n/d (d a positive natural) to the nearest integer, ties to even:
the rounding of the .2f format (binary-representation effects of the
double type are outside the model). -/
def roundHalfEvenDiv (n : Int) (d : Nat) : Int :=
  let q := n.fdiv d
  let r2 := 2 * (n - q * d)
  if r2 < (d : Int) then q
  else if (d : Int) < r2 then q + 1
  else if q.emod 2 = 0 then q else q + 1

/-- Two-digit zero-padded decimal representation of n < 100. -/
def pad2 (n : Nat) : String :=
  if n < 10 then "0" ++ toString n else toString n

/-- The .2f fixed-two-decimal format applied to a rational x: round
x * 100 = (100 * x.num) / x.den at the integer, then print the integer
part, a point and exactly two fractional digits.  (The sign of a negative
value that rounds to zero is not modelled.) -/
def formatFixed2 (x : ℚ) : String :=
  let c := roundHalfEvenDiv (100 * x.num) x.den
  (if c < 0 then "-" else "")
    ++ toString (c.natAbs / 100) ++ "." ++ pad2 (c.natAbs % 100)

/-- file_base_name of process_and_save:
model_th{threshold}_red{int(reduction*100)}. -/
def fileBaseName (threshold : Int) (reduction : ℚ) : String :=
  "model_th" ++ toString threshold ++ "_red"
    ++ toString (reductionPercentOf reduction)

/-- Path of the STL file written for a combination. -/
def stlPathOf (dir : String) (threshold : Int) (reduction : ℚ) : String :=
  pathJoin dir (fileBaseName threshold reduction ++ ".stl")

/-- Path of the PNG preview written for a combination. -/
def pngPathOf (dir : String) (threshold : Int) (reduction : ℚ) : String :=
  pathJoin dir (fileBaseName threshold reduction ++ ".png")

/-- The dict appended to log_list for a successful combination. -/
def mkRow (threshold : Int) (reduction : ℚ) (m : MeshResult) : Row :=
  { threshold := threshold
    reductionPercent := reductionPercentOf reduction
    polygonCount := m.numPolys
    surfaceArea := formatFixed2 m.surfaceArea
    volume := formatFixed2 m.volume
    bbX := formatFixed2 m.bbX
    bbY := formatFixed2 m.bbY
    bbZ := formatFixed2 m.bbZ
    comX := formatFixed2 m.comX
    comY := formatFixed2 m.comY
    comZ := formatFixed2 m.comZ
    stlFile := fileBaseName threshold reduction ++ ".stl"
    imageFile := fileBaseName threshold reduction ++ ".png" }

/-- The thirteen cells of one CSV row, in fieldnames order, as the
csv.DictWriter serializes them (integers via str, strings verbatim). -/
def rowCells (r : Row) : List String :=
  [toString r.threshold, toString r.reductionPercent,
   toString r.polygonCount, r.surfaceArea, r.volume,
   r.bbX, r.bbY, r.bbZ, r.comX, r.comY, r.comZ, r.stlFile, r.imageFile]

/-- process_and_save: run the geometry pipeline for one combination; on a
zero-polygon result print the skip message and return with the log
unchanged; otherwise analyze, write the STL, write the PNG, and append the
row.  Returns the event trace of the call and the updated log list. -/
def process_and_save (threshold : Int) (reduction : ℚ) (pipe : Pipeline)
    (output_dir : String) (log_list : List Row) (iteration_info : String) :
    List Event × List Row :=
  let poly := pipe threshold reduction
  if poly.numPolys = 0 then
    ([Event.processingMsg iteration_info threshold reduction, Event.skipMsg],
     log_list)
  else
    ([Event.processingMsg iteration_info threshold reduction,
      Event.analyze threshold reduction,
      Event.writeStl (stlPathOf output_dir threshold reduction),
      Event.savedStlMsg (stlPathOf output_dir threshold reduction),
      Event.writePng (pngPathOf output_dir threshold reduction),
      Event.savedImageMsg (pngPathOf output_dir threshold reduction),
      Event.appendLog (mkRow threshold reduction poly),
      Event.iterFinishedMsg],
     log_list ++ [mkRow threshold reduction poly])

/-- total_iterations of main. -/
def total_iterations : Nat := 29

/-- The iteration_info string current_iteration/total_iterations. -/
def iterInfo (i : Nat) : String :=
  toString i ++ "/" ++ toString total_iterations

/-- Python range(start, stop, step) for a positive step (the only use in
the script). -/
def pyRange (start stop step : Int) : List Int :=
  if 0 < step then
    (List.range ((stop - start + step - 1).toNat / step.toNat)).map
      (fun i => start + step * (i : Int))
  else []

/-- thresholds1 = range(0, 251, 10). -/
def thresholds1 : List Int := pyRange 0 251 10

/-- reduction1 = 0.0. -/
def reduction1 : ℚ := mkRat 0 1

/-- threshold2 = 120. -/
def threshold2 : Int := 120

/-- reductions2 = [0.0, 0.5, 0.9, 0.99] as exact rationals. -/
def reductions2 : List ℚ := [mkRat 0 1, mkRat 1 2, mkRat 9 10, mkRat 99 100]

/-- The Phase-1 combination list: each threshold with reduction 0. -/
def phase1Combos : List (Int × ℚ) :=
  thresholds1.map (fun t => (t, reduction1))

/-- The Phase-2 combination list: the fixed threshold with each
reduction, in listed order. -/
def phase2Combos : List (Int × ℚ) :=
  reductions2.map (fun r => (threshold2, r))

/-- All combinations attempted, in processing order. -/
def allCombos : List (Int × ℚ) := phase1Combos ++ phase2Combos

/-- Boolean strict-ascending check on an integer list. -/
def ascChain : List Int → Bool
  | [] => true
  | [_] => true
  | a :: b :: l => (decide (a < b)) && ascChain (b :: l)

/-- Run a list of combinations in order, threading the iteration counter
(k is its value before the first of them) and the log list; the returned
trace is the concatenation of the per-combination traces. -/
def runCombos (combos : List (Int × ℚ)) (pipe : Pipeline) (k : Nat)
    (log : List Row) : List Event × List Row :=
  match combos with
  | [] => ([], log)
  | (t, r) :: rest =>
    let step := process_and_save t r pipe OUTPUT_DIR log (iterInfo (k + 1))
    let tail := runCombos rest pipe (k + 1) step.2
    (step.1 ++ tail.1, tail.2)

/-- The row the sweep contributes for one combination: none on a
zero-polygon result, otherwise the mkRow of its measurements. -/
def rowOf (pipe : Pipeline) (c : Int × ℚ) : Option Row :=
  if (pipe c.1 c.2).numPolys = 0 then none
  else some (mkRow c.1 c.2 (pipe c.1 c.2))

/-- Banner printed before Batch 1. -/
def batch1Banner : String :=
  "\n--- Starting Batch 1: Varying Threshold, Reduction=0% ---"

/-- Banner printed before Batch 2.  It announces Threshold=0, although
threshold2 = 120 is what Batch 2 uses. -/
def batch2Banner : String :=
  "\n--- Starting Batch 2: Threshold=0, Varying Reduction ---"

/-- Event trace of the two-phase sweep of main: Batch-1 banner, Phase-1
combinations, Batch-2 banner, Phase-2 combinations, with the iteration
counter running on across the phases. -/
def sweepTrace (pipe : Pipeline) : List Event :=
  Event.batchBannerMsg batch1Banner
    :: (runCombos phase1Combos pipe 0 []).1
    ++ Event.batchBannerMsg batch2Banner
    :: (runCombos phase2Combos pipe phase1Combos.length
          (runCombos phase1Combos pipe 0 []).2).1

/-- results_log at the end of the sweep. -/
def sweepLog (pipe : Pipeline) : List Row :=
  (runCombos phase2Combos pipe phase1Combos.length
     (runCombos phase1Combos pipe 0 []).2).2

/-- ASCII lowercase of a string (str.lower of the script on file names). -/
def strLower (s : String) : String := String.mk (s.data.map Char.toLower)

/-- str.endswith on strings. -/
def strEndsWith (s t : String) : Bool := t.data.isSuffixOf s.data

/-- f.lower().endswith((".tif", ".tiff")). -/
def isTifName (f : String) : Bool :=
  strEndsWith (strLower f) ".tif" || strEndsWith (strLower f) ".tiff"

/-- Lexicographic comparison by code point, the string order of Python
sorted(). -/
def charListLe : List Char → List Char → Bool
  | [], _ => true
  | _ :: _, [] => false
  | a :: as, b :: bs =>
    if a.toNat < b.toNat then true
    else if b.toNat < a.toNat then false
    else charListLe as bs

/-- Lexicographic order on strings. -/
def strLe (s t : String) : Bool := charListLe s.data t.data

/-- Stable ascending insertion of a string into a sorted list. -/
def insertSorted (a : String) : List String → List String
  | [] => [a]
  | b :: l => if strLe a b then a :: b :: l else b :: insertSorted a l

/-- Python sorted() on strings: stable ascending lexicographic sort. -/
def sortStrings : List String → List String
  | [] => []
  | a :: l => insertSorted a (sortStrings l)

/-- tif_files of main: the directory listing filtered to TIF names,
joined to INPUT_DIR, sorted. -/
def tifFiles (files : List String) : List String :=
  sortStrings ((files.filter isTifName).map (fun f => pathJoin INPUT_DIR f))

/-- Path of the CSV summary. -/
def csvPath : String := pathJoin OUTPUT_DIR "comparison_summarynew.csv"

/-- The fieldnames list of the CSV writer. -/
def fieldnames : List String :=
  ["Threshold", "Reduction (%)", "Polygon Count", "Surface Area", "Volume",
   "Bounding Box X", "Bounding Box Y", "Bounding Box Z",
   "Center of Mass X", "Center of Mass Y", "Center of Mass Z",
   "STL File", "Image File"]

/-- main.  Parameters stand for the environment: `listing` is the
directory listing of INPUT_DIR (none when the directory is missing and
os.listdir raises FileNotFoundError), `pipe` is the external geometry
pipeline on the loaded volume, and `summaryErr` is the IOError reason the
CSV open or write raises, none when writing succeeds.  Returns the event
trace of the run. -/
def mainRun (listing : Option (List String)) (pipe : Pipeline)
    (summaryErr : Option String) : List Event :=
  let pre := [Event.mkdirOutput, Event.outputDirMsg, Event.readingFilesMsg]
  match listing with
  | none => pre ++ [Event.dirNotFoundMsg]
  | some files =>
    if (tifFiles files).isEmpty then pre ++ [Event.noTifMsg]
    else
      let pre2 := pre ++ Event.dataLoadedMsg :: Event.valueRangeMsg
        :: sweepTrace pipe
      if (sweepLog pipe).isEmpty then pre2 ++ [Event.noResultsMsg]
      else
        match summaryErr with
        | none => pre2 ++ [Event.writeSummary csvPath (sweepLog pipe),
                           Event.summaryDoneMsg csvPath]
        | some e => pre2 ++ [Event.summaryErrorMsg csvPath e]

/-- The slice-directory input is unusable: either the directory is missing
(os.listdir raises) or no file of the listing has a TIF extension. -/
def inputFailure (listing : Option (List String)) : Prop :=
  listing = none ∨
    ∃ files, listing = some files ∧ (tifFiles files).isEmpty = true

/-- A string consisting of an integer part, a point and exactly two
further characters: the shape of a fixed-two-decimal numeral. -/
def twoDecimalSuffix (s : String) : Prop :=
  ∃ pre post, s = pre ++ "." ++ post ∧ post.length = 2

/-- Number of characters after the first point of a string, if any. -/
def afterPointLen : List Char → Option Nat
  | [] => none
  | c :: l => if c = '.' then some l.length else afterPointLen l

/-- Boolean check that a serialized cell has exactly two characters after
a decimal point. -/
def isTwoDecimalStr (s : String) : Bool := afterPointLen s.data == some 2

/-- A mesh measurement with five polygons and unit measurements, used as a
concrete oracle output. -/
def meshFive : MeshResult :=
  { numPolys := 5
    surfaceArea := mkRat 1 1, volume := mkRat 1 1
    bbX := mkRat 1 1, bbY := mkRat 1 1, bbZ := mkRat 1 1
    comX := mkRat 1 1, comY := mkRat 1 1, comZ := mkRat 1 1 }

/-- An oracle on which every combination yields five polygons. -/
def pipeFive : Pipeline := fun _ _ => meshFive

/-- A mesh measurement with zero polygons. -/
def meshZero : MeshResult :=
  { numPolys := 0
    surfaceArea := mkRat 0 1, volume := mkRat 0 1
    bbX := mkRat 0 1, bbY := mkRat 0 1, bbZ := mkRat 0 1
    comX := mkRat 0 1, comY := mkRat 0 1, comZ := mkRat 0 1 }

/-- An oracle on which every combination yields zero polygons. -/
def pipeZero : Pipeline := fun _ _ => meshZero

/-- Whether pat occurs as a contiguous subsequence of s. -/
def hasSub : List Char → List Char → Bool
  | [], pat => pat.isEmpty
  | c :: rest, pat => pat.isPrefixOf (c :: rest) || hasSub rest pat

/-! Helper lemmas about the embedded control flow. -/

theorem process_and_save_zero (pipe : Pipeline) (t : Int) (r : ℚ)
    (dir info : String) (log : List Row) (h : (pipe t r).numPolys = 0) :
    process_and_save t r pipe dir log info =
      ([Event.processingMsg info t r, Event.skipMsg], log) := by
  simp [process_and_save, h]

theorem process_and_save_pos (pipe : Pipeline) (t : Int) (r : ℚ)
    (dir info : String) (log : List Row) (h : (pipe t r).numPolys ≠ 0) :
    process_and_save t r pipe dir log info =
      ([Event.processingMsg info t r,
        Event.analyze t r,
        Event.writeStl (stlPathOf dir t r),
        Event.savedStlMsg (stlPathOf dir t r),
        Event.writePng (pngPathOf dir t r),
        Event.savedImageMsg (pngPathOf dir t r),
        Event.appendLog (mkRow t r (pipe t r)),
        Event.iterFinishedMsg],
       log ++ [mkRow t r (pipe t r)]) := by
  simp [process_and_save, h]

theorem runCombos_log (pipe : Pipeline) :
    ∀ (combos : List (Int × ℚ)) (k : Nat) (log : List Row),
      (runCombos combos pipe k log).2 = log ++ combos.filterMap (rowOf pipe)
  | [], _, log => by simp [runCombos]
  | (t, r) :: rest, k, log => by
    by_cases h : (pipe t r).numPolys = 0
    · simp [runCombos, process_and_save, h, rowOf,
        runCombos_log pipe rest (k + 1) log]
    · simp [runCombos, process_and_save, h, rowOf,
        runCombos_log pipe rest (k + 1) (log ++ [mkRow t r (pipe t r)])]

theorem runCombos_no_summary (pipe : Pipeline) (p : String) (rows : List Row) :
    ∀ (combos : List (Int × ℚ)) (k : Nat) (log : List Row),
      Event.writeSummary p rows ∉ (runCombos combos pipe k log).1
  | [], _, _ => by simp [runCombos]
  | (t, r) :: rest, k, log => by
    by_cases h : (pipe t r).numPolys = 0 <;>
      simp [runCombos, process_and_save, h,
        runCombos_no_summary pipe p rows rest (k + 1)]

theorem runCombos_no_summaryErr (pipe : Pipeline) (p e : String) :
    ∀ (combos : List (Int × ℚ)) (k : Nat) (log : List Row),
      Event.summaryErrorMsg p e ∉ (runCombos combos pipe k log).1
  | [], _, _ => by simp [runCombos]
  | (t, r) :: rest, k, log => by
    by_cases h : (pipe t r).numPolys = 0 <;>
      simp [runCombos, process_and_save, h,
        runCombos_no_summaryErr pipe p e rest (k + 1)]

theorem appendLog_mem_of_filterMap (pipe : Pipeline) (row : Row) :
    ∀ (combos : List (Int × ℚ)) (k : Nat) (log : List Row),
      row ∈ combos.filterMap (rowOf pipe) →
      Event.appendLog row ∈ (runCombos combos pipe k log).1
  | [], _, _ => by simp
  | (t, r) :: rest, k, log => by
    intro hm
    by_cases h : (pipe t r).numPolys = 0
    · rw [List.filterMap_cons] at hm
      simp only [rowOf, h, if_pos] at hm
      simp [runCombos, process_and_save, h]
      exact appendLog_mem_of_filterMap pipe row rest (k + 1) log hm
    · rw [List.filterMap_cons] at hm
      simp only [rowOf, h, if_neg] at hm
      rcases List.mem_cons.1 hm with hrow | hm
      · subst hrow
        simp [runCombos, process_and_save, h]
      · simp [runCombos, process_and_save, h]
        exact Or.inr (appendLog_mem_of_filterMap pipe row rest (k + 1)
          (log ++ [mkRow t r (pipe t r)]) hm)

theorem polygonCount_pos_of_rowOf (pipe : Pipeline) (c : Int × ℚ) (row : Row)
    (h : rowOf pipe c = some row) : 0 < row.polygonCount := by
  unfold rowOf at h
  split at h
  · exact absurd h (by simp)
  · next h0 =>
    cases h
    simpa [mkRow] using Nat.pos_of_ne_zero h0

theorem rows_pos_of_filterMap (pipe : Pipeline) (row : Row)
    (combos : List (Int × ℚ)) (h : row ∈ combos.filterMap (rowOf pipe)) :
    0 < row.polygonCount := by
  rcases List.mem_filterMap.1 h with ⟨c, -, hc⟩
  exact polygonCount_pos_of_rowOf pipe c row hc

theorem sweepLog_eq (pipe : Pipeline) :
    sweepLog pipe = allCombos.filterMap (rowOf pipe) := by
  simp [sweepLog, runCombos_log, allCombos, List.filterMap_append]

theorem sweepTrace_no_summary (pipe : Pipeline) (p : String) (rows : List Row) :
    Event.writeSummary p rows ∉ sweepTrace pipe := by
  simp [sweepTrace, runCombos_no_summary]

theorem sweepTrace_no_summaryErr (pipe : Pipeline) (p e : String) :
    Event.summaryErrorMsg p e ∉ sweepTrace pipe := by
  simp [sweepTrace, runCombos_no_summaryErr]

theorem appendLog_mem_sweepTrace (pipe : Pipeline) (row : Row)
    (h : row ∈ sweepLog pipe) : Event.appendLog row ∈ sweepTrace pipe := by
  rw [sweepLog_eq, allCombos, List.filterMap_append] at h
  rcases List.mem_append.1 h with h1 | h2
  · simp only [sweepTrace, List.cons_append, List.mem_cons, List.mem_append]
    exact Or.inr (Or.inl
      (appendLog_mem_of_filterMap pipe row phase1Combos 0 [] h1))
  · simp only [sweepTrace, List.cons_append, List.mem_cons, List.mem_append]
    exact Or.inr (Or.inr (Or.inr
      (appendLog_mem_of_filterMap pipe row phase2Combos phase1Combos.length
        (runCombos phase1Combos pipe 0 []).2 h2)))

theorem writeSummary_mem_mainRun (pipe : Pipeline)
    (listing : Option (List String)) (serr : Option String)
    (p : String) (rows : List Row)
    (h : Event.writeSummary p rows ∈ mainRun listing pipe serr) :
    p = csvPath ∧ rows = sweepLog pipe := by
  match listing with
  | none => simp [mainRun] at h
  | some files =>
    by_cases h1 : (tifFiles files).isEmpty
    · simp [mainRun, h1] at h
    · by_cases h2 : (sweepLog pipe).isEmpty
      · simp [mainRun, h1, h2, sweepTrace_no_summary] at h
      · match serr with
        | none =>
          simp [mainRun, h1, h2, sweepTrace_no_summary] at h
          exact ⟨h.1, h.2⟩
        | some e =>
          simp [mainRun, h1, h2, sweepTrace_no_summary] at h

theorem pad2_len : ∀ n, n < 100 → (pad2 n).length = 2 := by decide

/-! The claims. -/

/-- C1: a combination whose mesh after simplification has zero polygons
runs as a skip: its call writes no mesh file and no preview image and
leaves the log unchanged, the batch continues with the next combination,
and consequently every row of any written summary has a positive polygon
count and the summary row count is at most the number of attempted
combinations. -/
theorem C1_zero_face_skip (pipe : Pipeline) (t : Int) (r : ℚ)
    (dir info : String) (log : List Row) (rest : List (Int × ℚ)) (k : Nat)
    (listing : Option (List String)) (serr : Option String)
    (p : String) (rows : List Row)
    (h : (pipe t r).numPolys = 0) :
    process_and_save t r pipe dir log info
      = ([Event.processingMsg info t r, Event.skipMsg], log)
    ∧ runCombos ((t, r) :: rest) pipe k log
      = ([Event.processingMsg (iterInfo (k + 1)) t r, Event.skipMsg]
           ++ (runCombos rest pipe (k + 1) log).1,
         (runCombos rest pipe (k + 1) log).2)
    ∧ (Event.writeSummary p rows ∈ mainRun listing pipe serr →
         rows.length ≤ allCombos.length
         ∧ ∀ row ∈ rows, 0 < row.polygonCount) := by
  refine ⟨process_and_save_zero pipe t r dir info log h, ?_, ?_⟩
  · simp [runCombos, process_and_save, h]
  · intro hmem
    obtain ⟨-, hrows⟩ :=
      writeSummary_mem_mainRun pipe listing serr p rows hmem
    subst hrows
    rw [sweepLog_eq]
    exact ⟨List.length_filterMap_le _ _,
      fun row hr => rows_pos_of_filterMap pipe row allCombos hr⟩

/-- Witness for C1 on the all-zero oracle at the first combination. -/
theorem C1_zero_face_skip_witness :
    (pipeZero 0 (mkRat 0 1)).numPolys = 0
    ∧ process_and_save 0 (mkRat 0 1) pipeZero OUTPUT_DIR [] (iterInfo 1)
        = ([Event.processingMsg (iterInfo 1) 0 (mkRat 0 1), Event.skipMsg],
           []) :=
  ⟨rfl, (C1_zero_face_skip pipeZero 0 (mkRat 0 1) OUTPUT_DIR (iterInfo 1)
    [] [] 0 none none "" [] rfl).1⟩

/-- C2: the sweep processes the Phase-1 combinations (thresholds of
range(0, 251, 10) in ascending order, reduction fixed at 0) before the
Phase-2 combinations (threshold fixed, reductions in listed order), and
any written summary holds exactly the successful rows of that combined
list, in that processing order. -/
theorem C2_sweep_order (pipe : Pipeline) (listing : Option (List String))
    (serr : Option String) (p : String) (rows : List Row)
    (h : Event.writeSummary p rows ∈ mainRun listing pipe serr) :
    rows = (phase1Combos ++ phase2Combos).filterMap (rowOf pipe)
    ∧ phase1Combos = thresholds1.map (fun t => (t, reduction1))
    ∧ phase2Combos = reductions2.map (fun r => (threshold2, r))
    ∧ thresholds1 = pyRange 0 251 10
    ∧ ascChain thresholds1 = true
    ∧ phase1Combos.map Prod.snd = List.replicate 26 reduction1 := by
  obtain ⟨-, hrows⟩ := writeSummary_mem_mainRun pipe listing serr p rows h
  exact ⟨by rw [hrows, sweepLog_eq, allCombos], rfl, rfl, rfl,
    by decide, by decide⟩

/-- Witness for C2 on a run where every combination succeeds. -/
theorem C2_sweep_order_witness :
    Event.writeSummary csvPath (sweepLog pipeFive)
        ∈ mainRun (some ["a.tif"]) pipeFive none
    ∧ sweepLog pipeFive
        = (phase1Combos ++ phase2Combos).filterMap (rowOf pipeFive) :=
  ⟨by decide,
   (C2_sweep_order pipeFive (some ["a.tif"]) none csvPath
      (sweepLog pipeFive) (by decide)).1⟩

/-- C3: the declared fixed total iteration count 29, used in every
progress message as the denominator of iterInfo, differs from the actual
number of generated combinations, 26 Phase-1 thresholds plus 4 Phase-2
reductions = 30. -/
theorem C3_declared_total_mismatch :
    total_iterations = 29
    ∧ thresholds1.length = 26
    ∧ reductions2.length = 4
    ∧ allCombos.length = 30
    ∧ total_iterations ≠ allCombos.length
    ∧ iterInfo 1 = "1/29"
    ∧ iterInfo 30 = "30/29" := by decide

/-- C4: when the sweep ends with an empty result log, the run emits the
distinct no-results message as its final event and writes no summary file
(no writeSummary event and no summary-error event occur). -/
theorem C4_empty_sweep (pipe : Pipeline) (files : List String)
    (serr : Option String)
    (h1 : (tifFiles files).isEmpty = false)
    (h2 : (sweepLog pipe).isEmpty = true) :
    mainRun (some files) pipe serr
      = [Event.mkdirOutput, Event.outputDirMsg, Event.readingFilesMsg,
         Event.dataLoadedMsg, Event.valueRangeMsg]
          ++ sweepTrace pipe ++ [Event.noResultsMsg]
    ∧ (∀ p rows, Event.writeSummary p rows ∉ mainRun (some files) pipe serr)
    ∧ (∀ p e, Event.summaryErrorMsg p e ∉ mainRun (some files) pipe serr)
    ∧ (mainRun (some files) pipe serr).getLast? = some Event.noResultsMsg := by
  have htr : mainRun (some files) pipe serr
      = [Event.mkdirOutput, Event.outputDirMsg, Event.readingFilesMsg,
         Event.dataLoadedMsg, Event.valueRangeMsg]
          ++ sweepTrace pipe ++ [Event.noResultsMsg] := by
    simp [mainRun, h1, h2]
  refine ⟨htr, ?_, ?_, ?_⟩
  · intro p rows
    rw [htr]
    simp [sweepTrace_no_summary pipe p rows]
  · intro p e
    rw [htr]
    simp [sweepTrace_no_summaryErr pipe p e]
  · rw [htr]
    exact List.getLast?_concat _

/-- Witness for C4 on the all-zero oracle. -/
theorem C4_empty_sweep_witness :
    (tifFiles ["a.tif"]).isEmpty = false
    ∧ (sweepLog pipeZero).isEmpty = true
    ∧ (mainRun (some ["a.tif"]) pipeZero none).getLast?
        = some Event.noResultsMsg :=
  ⟨by decide, by decide,
   (C4_empty_sweep pipeZero ["a.tif"] none (by decide) (by decide)).2.2.2⟩

/-- C5: every non-skipped combination writes its mesh to
dir/model_th{t}_red{p}.stl with p the integer reduction percent of r, and
its preview to the same base name with the png extension in the same
directory. -/
theorem C5_artifact_paths (pipe : Pipeline) (t : Int) (r : ℚ)
    (dir info : String) (log : List Row)
    (h : (pipe t r).numPolys ≠ 0) :
    Event.writeStl (pathJoin dir (fileBaseName t r ++ ".stl"))
        ∈ (process_and_save t r pipe dir log info).1
    ∧ Event.writePng (pathJoin dir (fileBaseName t r ++ ".png"))
        ∈ (process_and_save t r pipe dir log info).1
    ∧ fileBaseName t r
        = "model_th" ++ toString t ++ "_red"
            ++ toString (reductionPercentOf r) := by
  rw [process_and_save_pos pipe t r dir info log h]
  refine ⟨?_, ?_, rfl⟩ <;> simp [stlPathOf, pngPathOf]

/-- Witness for C5 at threshold 120, reduction 1/2. -/
theorem C5_artifact_paths_witness :
    (pipeFive 120 (mkRat 1 2)).numPolys ≠ 0
    ∧ Event.writeStl (pathJoin OUTPUT_DIR (fileBaseName 120 (mkRat 1 2)
        ++ ".stl"))
        ∈ (process_and_save 120 (mkRat 1 2) pipeFive OUTPUT_DIR []
            (iterInfo 27)).1
    ∧ pathJoin OUTPUT_DIR (fileBaseName 120 (mkRat 1 2) ++ ".stl")
        = "output/model_th120_red50.stl"
    ∧ pathJoin OUTPUT_DIR (fileBaseName 120 (mkRat 1 2) ++ ".png")
        = "output/model_th120_red50.png" :=
  ⟨by decide,
   (C5_artifact_paths pipeFive 120 (mkRat 1 2) OUTPUT_DIR (iterInfo 27) []
      (by decide)).1,
   by decide, by decide⟩

/-- C6: with the slice directory missing or holding no recognized slice
images, the run ends right after the user-visible error message: no
combination is processed and no artifact of any kind is written. -/
theorem C6_input_not_found (pipe : Pipeline) (serr : Option String)
    (listing : Option (List String)) (h : inputFailure listing) :
    (mainRun listing pipe serr
        = [Event.mkdirOutput, Event.outputDirMsg, Event.readingFilesMsg,
           Event.dirNotFoundMsg]
      ∨ mainRun listing pipe serr
        = [Event.mkdirOutput, Event.outputDirMsg, Event.readingFilesMsg,
           Event.noTifMsg])
    ∧ (∀ p, Event.writeStl p ∉ mainRun listing pipe serr)
    ∧ (∀ p, Event.writePng p ∉ mainRun listing pipe serr)
    ∧ (∀ row, Event.appendLog row ∉ mainRun listing pipe serr)
    ∧ (∀ p rows, Event.writeSummary p rows ∉ mainRun listing pipe serr)
    ∧ (∀ t r, Event.analyze t r ∉ mainRun listing pipe serr)
    ∧ (∀ i t r, Event.processingMsg i t r ∉ mainRun listing pipe serr) := by
  rcases h with rfl | ⟨files, rfl, hemp⟩
  · exact ⟨Or.inl (by simp [mainRun]), by intros; simp [mainRun],
      by intros; simp [mainRun], by intros; simp [mainRun],
      by intros; simp [mainRun], by intros; simp [mainRun],
      by intros; simp [mainRun]⟩
  · exact ⟨Or.inr (by simp [mainRun, hemp]), by intros; simp [mainRun, hemp],
      by intros; simp [mainRun, hemp], by intros; simp [mainRun, hemp],
      by intros; simp [mainRun, hemp], by intros; simp [mainRun, hemp],
      by intros; simp [mainRun, hemp]⟩

/-- Witness for C6 with a missing slice directory. -/
theorem C6_input_not_found_witness :
    inputFailure none
    ∧ (mainRun none pipeFive none
        = [Event.mkdirOutput, Event.outputDirMsg, Event.readingFilesMsg,
           Event.dirNotFoundMsg]
      ∨ mainRun none pipeFive none
        = [Event.mkdirOutput, Event.outputDirMsg, Event.readingFilesMsg,
           Event.noTifMsg]) :=
  ⟨Or.inl rfl, (C6_input_not_found pipeFive none none (Or.inl rfl)).1⟩

/-- C7: a failure while writing the summary is reported with its cause
after the whole sweep (every logged row was appended within the sweep
trace, which precedes the failure event); the failure replaces only the
summary-writing step relative to a successful run, and the run still ends
normally, its last event being the error report. -/
theorem C7_summary_write_failure (pipe : Pipeline) (files : List String)
    (e : String)
    (h1 : (tifFiles files).isEmpty = false)
    (h2 : (sweepLog pipe).isEmpty = false) :
    mainRun (some files) pipe (some e)
      = [Event.mkdirOutput, Event.outputDirMsg, Event.readingFilesMsg,
         Event.dataLoadedMsg, Event.valueRangeMsg]
          ++ sweepTrace pipe ++ [Event.summaryErrorMsg csvPath e]
    ∧ mainRun (some files) pipe none
      = [Event.mkdirOutput, Event.outputDirMsg, Event.readingFilesMsg,
         Event.dataLoadedMsg, Event.valueRangeMsg]
          ++ sweepTrace pipe
          ++ [Event.writeSummary csvPath (sweepLog pipe),
              Event.summaryDoneMsg csvPath]
    ∧ (∀ row ∈ sweepLog pipe, Event.appendLog row ∈ sweepTrace pipe)
    ∧ (mainRun (some files) pipe (some e)).getLast?
        = some (Event.summaryErrorMsg csvPath e) := by
  have htr : mainRun (some files) pipe (some e)
      = [Event.mkdirOutput, Event.outputDirMsg, Event.readingFilesMsg,
         Event.dataLoadedMsg, Event.valueRangeMsg]
          ++ sweepTrace pipe ++ [Event.summaryErrorMsg csvPath e] := by
    simp [mainRun, h1, h2]
  refine ⟨htr, by simp [mainRun, h1, h2], ?_, ?_⟩
  · exact fun row hr => appendLog_mem_sweepTrace pipe row hr
  · rw [htr]
    exact List.getLast?_concat _

/-- Witness for C7 on a run where every combination succeeds and the
summary write fails. -/
theorem C7_summary_write_failure_witness :
    (tifFiles ["a.tif"]).isEmpty = false
    ∧ (sweepLog pipeFive).isEmpty = false
    ∧ (mainRun (some ["a.tif"]) pipeFive (some "disk full")).getLast?
        = some (Event.summaryErrorMsg csvPath "disk full") :=
  ⟨by decide, by decide,
   (C7_summary_write_failure pipeFive ["a.tif"] "disk full"
      (by decide) (by decide)).2.2.2⟩

/-- C8 counterexample: in the run on an oracle giving five polygons
everywhere, the summary holds the row of the first combination
(threshold 0, reduction 0), and the Threshold cell of that row serializes
as the bare integer string 0 with no decimal point, so not every numeric
field of every summary row carries fixed two-decimal formatting. -/
theorem C8_counterexample :
    Event.writeSummary csvPath (sweepLog pipeFive)
        ∈ mainRun (some ["a.tif"]) pipeFive none
    ∧ (sweepLog pipeFive).head? = some (mkRow 0 (mkRat 0 1) meshFive)
    ∧ (rowCells (mkRow 0 (mkRat 0 1) meshFive)).head? = some "0"
    ∧ isTwoDecimalStr "0" = false := by decide

/-- C8 amended: in every summary row the eight measured fields (surface
area, volume, the three bounding-box extents, the three centroid
coordinates) carry fixed two-decimal formatting, while the threshold,
reduction-percent and polygon-count cells are serialized as plain
integers and the last two cells are the file names. -/
theorem C8_two_decimal_fields (t : Int) (r : ℚ) (m : MeshResult) :
    rowCells (mkRow t r m)
      = [toString t, toString (reductionPercentOf r), toString m.numPolys,
         formatFixed2 m.surfaceArea, formatFixed2 m.volume,
         formatFixed2 m.bbX, formatFixed2 m.bbY, formatFixed2 m.bbZ,
         formatFixed2 m.comX, formatFixed2 m.comY, formatFixed2 m.comZ,
         fileBaseName t r ++ ".stl", fileBaseName t r ++ ".png"]
    ∧ ∀ x : ℚ, twoDecimalSuffix (formatFixed2 x) := by
  refine ⟨rfl, fun x => ?_⟩
  refine ⟨(if roundHalfEvenDiv (100 * x.num) x.den < 0 then "-" else "")
      ++ toString ((roundHalfEvenDiv (100 * x.num) x.den).natAbs / 100),
    pad2 ((roundHalfEvenDiv (100 * x.num) x.den).natAbs % 100), ?_, ?_⟩
  · rfl
  · exact pad2_len _ (Nat.mod_lt _ (by norm_num))

/-- C9: the log row of a combination is appended only after that
combination fully succeeded: a skipped combination appends nothing, and a
successful one emits its analyze, STL-write and PNG-write events at
positions 1 through 5 of its trace, before the single append event at
position 6. -/
theorem C9_append_only_after_success (pipe : Pipeline) (t : Int) (r : ℚ)
    (dir info : String) (log : List Row) :
    ((pipe t r).numPolys = 0 →
        (process_and_save t r pipe dir log info).2 = log
      ∧ ∀ row, Event.appendLog row ∉ (process_and_save t r pipe dir log
          info).1)
    ∧ ((pipe t r).numPolys ≠ 0 →
        (process_and_save t r pipe dir log info).2
          = log ++ [mkRow t r (pipe t r)]
      ∧ ((process_and_save t r pipe dir log info).1)[6]?
          = some (Event.appendLog (mkRow t r (pipe t r)))
      ∧ List.take 6 (process_and_save t r pipe dir log info).1
          = [Event.processingMsg info t r, Event.analyze t r,
             Event.writeStl (stlPathOf dir t r),
             Event.savedStlMsg (stlPathOf dir t r),
             Event.writePng (pngPathOf dir t r),
             Event.savedImageMsg (pngPathOf dir t r)]
      ∧ (∀ row, Event.appendLog row ∈ (process_and_save t r pipe dir log
            info).1 → row = mkRow t r (pipe t r))) := by
  constructor
  · intro h
    rw [process_and_save_zero pipe t r dir info log h]
    exact ⟨rfl, by intro row; simp⟩
  · intro h
    rw [process_and_save_pos pipe t r dir info log h]
    refine ⟨rfl, rfl, rfl, ?_⟩
    intro row hrow
    simpa using hrow

/-- Witness for C9, covering the skip branch on the all-zero oracle and
the success branch at threshold 120, reduction 1/2. -/
theorem C9_append_only_after_success_witness :
    ((pipeZero 0 (mkRat 0 1)).numPolys = 0
      ∧ (process_and_save 0 (mkRat 0 1) pipeZero OUTPUT_DIR []
          (iterInfo 1)).2 = [])
    ∧ ((pipeFive 120 (mkRat 1 2)).numPolys ≠ 0
      ∧ ((process_and_save 120 (mkRat 1 2) pipeFive OUTPUT_DIR []
            (iterInfo 27)).1)[6]?
          = some (Event.appendLog (mkRow 120 (mkRat 1 2) meshFive))) :=
  ⟨⟨rfl, ((C9_append_only_after_success pipeZero 0 (mkRat 0 1) OUTPUT_DIR
      (iterInfo 1) []).1 rfl).1⟩,
   ⟨by decide, ((C9_append_only_after_success pipeFive 120 (mkRat 1 2)
      OUTPUT_DIR (iterInfo 27) []).2 (by decide)).2.1⟩⟩

/-- C10: the Batch-2 banner printed at the start of Phase 2 announces
Threshold=0 (and not Threshold=120), yet every Phase-2 combination is
processed with threshold2 = 120; the banner appears in every sweep
trace. -/
theorem C10_batch2_banner_mismatch :
    batch2Banner = "\n--- Starting Batch 2: Threshold=0, Varying Reduction ---"
    ∧ hasSub batch2Banner.data ("Threshold=0").data = true
    ∧ hasSub batch2Banner.data ("Threshold=120").data = false
    ∧ threshold2 = 120
    ∧ phase2Combos.map Prod.fst = [120, 120, 120, 120]
    ∧ threshold2 ≠ 0
    ∧ ∀ pipe : Pipeline,
        Event.batchBannerMsg batch2Banner ∈ sweepTrace pipe := by
  refine ⟨rfl, by decide, by decide, rfl, by decide, by decide,
    fun pipe => ?_⟩
  simp [sweepTrace]

end CTPipeline
